import Mathlib

/-!
Verification development for the petition-signing worker: the hashing
utilities, the fixed-window rate limiter, the signature submission
workflow, and the two-factor verification workflow, embedded as pure
Lean functions over an explicit database state.
-/

set_option maxRecDepth 100000

namespace RA2033

/-! ## Hashing utilities

The worker hashes identities and verification codes with the Web Crypto
SHA-256 digest, hex-encoded: hashString encodes the input as UTF-8,
digests it, and maps each byte to two lowercase hex digits. hashCode has
the identical body in the source.
-/

/-- 32-bit truncation used throughout the SHA-256 compression function. -/
def m32 (x : Nat) : Nat := x % 4294967296

/-- 32-bit addition. -/
def add32 (a b : Nat) : Nat := m32 (a + b)

/-- 32-bit right rotation. -/
def rotr (n x : Nat) : Nat := m32 ((x >>> n) ||| (x <<< (32 - n)))

/-- Bitwise complement on 32 bits. -/
def not32 (x : Nat) : Nat := 4294967295 ^^^ x

/-- UTF-8 encoding of one character (what TextEncoder.encode does per char). -/
def utf8Char (c : Char) : List Nat :=
  let n := c.toNat
  if n < 128 then [n]
  else if n < 2048 then [192 ||| (n >>> 6), 128 ||| (n &&& 63)]
  else if n < 65536 then
    [224 ||| (n >>> 12), 128 ||| ((n >>> 6) &&& 63), 128 ||| (n &&& 63)]
  else
    [240 ||| (n >>> 18), 128 ||| ((n >>> 12) &&& 63),
     128 ||| ((n >>> 6) &&& 63), 128 ||| (n &&& 63)]

/-- UTF-8 bytes of a string, mirroring TextEncoder.encode. -/
def utf8Bytes (s : String) : List Nat := s.toList.flatMap utf8Char

/-- The 64 SHA-256 round constants. -/
def sha256K : List Nat :=
  [1116352408, 1899447441, 3049323471, 3921009573, 961987163,
   1508970993, 2453635748, 2870763221, 3624381080, 310598401,
   607225278, 1426881987, 1925078388, 2162078206, 2614888103,
   3248222580, 3835390401, 4022224774, 264347078, 604807628,
   770255983, 1249150122, 1555081692, 1996064986, 2554220882,
   2821834349, 2952996808, 3210313671, 3336571891, 3584528711,
   113926993, 338241895, 666307205, 773529912, 1294757372,
   1396182291, 1695183700, 1986661051, 2177026350, 2456956037,
   2730485921, 2820302411, 3259730800, 3345764771, 3516065817,
   3600352804, 4094571909, 275423344, 430227734, 506948616,
   659060556, 883997877, 958139571, 1322822218, 1537002063,
   1747873779, 1955562222, 2024104815, 2227730452, 2361852424,
   2428436474, 2756734187, 3204031479, 3329325298]

/-- The SHA-256 initial hash state. -/
def sha256H0 : List Nat :=
  [1779033703, 3144134277, 1013904242, 2773480762,
   1359893119, 2600822924, 528734635, 1541459225]

/-- SHA-256 message padding: a 1 bit, zeros to 56 mod 64, then the bit
length as 8 big-endian bytes. -/
def sha256Pad (msg : List Nat) : List Nat :=
  let bitLen := msg.length * 8
  let zeros := (120 - ((msg.length + 1) % 64)) % 64
  msg ++ [128] ++ List.replicate zeros 0 ++
    [(bitLen >>> 56) % 256, (bitLen >>> 48) % 256, (bitLen >>> 40) % 256,
     (bitLen >>> 32) % 256, (bitLen >>> 24) % 256, (bitLen >>> 16) % 256,
     (bitLen >>> 8) % 256, bitLen % 256]

/-- Split a byte list into n blocks of 64 bytes. -/
def chunks64 (l : List Nat) : Nat → List (List Nat)
  | 0 => []
  | n + 1 => l.take 64 :: chunks64 (l.drop 64) n

/-- The first 16 32-bit big-endian words of a 64-byte block. -/
def blockWords (b : List Nat) : List Nat :=
  (List.range 16).map fun i =>
    (b.getD (4 * i) 0 <<< 24) ||| (b.getD (4 * i + 1) 0 <<< 16) |||
    (b.getD (4 * i + 2) 0 <<< 8) ||| b.getD (4 * i + 3) 0

/-- Small sigma 0 of the message schedule. -/
def ssig0 (x : Nat) : Nat := (rotr 7 x) ^^^ (rotr 18 x) ^^^ (x >>> 3)

/-- Small sigma 1 of the message schedule. -/
def ssig1 (x : Nat) : Nat := (rotr 17 x) ^^^ (rotr 19 x) ^^^ (x >>> 10)

/-- Extend the 16 block words by n further schedule words. -/
def extendW (w : List Nat) : Nat → List Nat
  | 0 => w
  | n + 1 =>
    let v := extendW w n
    let len := v.length
    v ++ [add32 (add32 (ssig1 (v.getD (len - 2) 0)) (v.getD (len - 7) 0))
            (add32 (ssig0 (v.getD (len - 15) 0)) (v.getD (len - 16) 0))]

/-- One SHA-256 round on the 8-word working state. -/
def sha256Round (s : List Nat) (wi ki : Nat) : List Nat :=
  let a := s.getD 0 0
  let b := s.getD 1 0
  let c := s.getD 2 0
  let d := s.getD 3 0
  let e := s.getD 4 0
  let f := s.getD 5 0
  let g := s.getD 6 0
  let h := s.getD 7 0
  let s1 := (rotr 6 e) ^^^ (rotr 11 e) ^^^ (rotr 25 e)
  let ch := (e &&& f) ^^^ ((not32 e) &&& g)
  let t1 := add32 (add32 (add32 h s1) (add32 ch ki)) wi
  let s0 := (rotr 2 a) ^^^ (rotr 13 a) ^^^ (rotr 22 a)
  let maj := (a &&& b) ^^^ (a &&& c) ^^^ (b &&& c)
  let t2 := add32 s0 maj
  [add32 t1 t2, a, b, c, add32 d t1, e, f, g]

/-- Compress one 64-byte block into the hash state. -/
def sha256Compress (st : List Nat) (block : List Nat) : List Nat :=
  let w := extendW (blockWords block) 48
  let fin := (List.range 64).foldl
    (fun s i => sha256Round s (w.getD i 0) (sha256K.getD i 0)) st
  List.zipWith add32 st fin

/-- The SHA-256 digest of a byte list, as 32 bytes. -/
def sha256 (msg : List Nat) : List Nat :=
  let padded := sha256Pad msg
  let st := (chunks64 padded (padded.length / 64)).foldl sha256Compress sha256H0
  st.flatMap fun w => [(w >>> 24) % 256, (w >>> 16) % 256, (w >>> 8) % 256, w % 256]

/-- One byte as two lowercase hex digits (toString 16 padded to width 2). -/
def hexByte (b : Nat) : String :=
  let ds := Nat.toDigits 16 b
  String.mk (if ds.length < 2 then '0' :: ds else ds)

/-- hashString from the worker: hex-encoded SHA-256 of the UTF-8 bytes. -/
def hashString (data : String) : String :=
  String.join ((sha256 (utf8Bytes data)).map hexByte)

/-- hashCode from the worker: its body is identical to hashString, the
hex-encoded SHA-256 of the UTF-8 bytes of the code. -/
def hashCode (code : String) : String :=
  String.join ((sha256 (utf8Bytes code)).map hexByte)

/-! ## Rate limiter

RateLimiter.fetch keeps one record per key, a count and a resetTime.
windowMs is 60000 and maxRequests is 5. With no record, or when
now > resetTime, it stores a fresh window with count 1 and resetTime
now + 60000 and allows; inside a window it rejects without storing when
count has reached 5, otherwise stores count + 1 and allows.
-/

/-- The stored window record of the rate limiter Durable Object. -/
structure RLData where
  count : Nat
  resetTime : Nat
  deriving DecidableEq, Repr

/-- The JSON body of a rate limiter response: allowed and remaining. -/
structure RLResp where
  allowed : Bool
  remaining : Nat
  deriving DecidableEq, Repr

/-- One RateLimiter.fetch call at time now on the stored state of a key:
the response and the state left in storage. -/
def rlFetch (now : Nat) (st : Option RLData) : RLResp × Option RLData :=
  match st with
  | none => (⟨true, 5 - 1⟩, some ⟨1, now + 60000⟩)
  | some data =>
    if now > data.resetTime then
      (⟨true, 5 - 1⟩, some ⟨1, now + 60000⟩)
    else if data.count ≥ 5 then
      (⟨false, 0⟩, some data)
    else
      (⟨true, 5 - data.count - 1⟩, some ⟨data.count + 1, data.resetTime⟩)

/-- Run a sequence of fetches at the given times; collect the allowed
flags and the final state. -/
def rlRun (st : Option RLData) : List Nat → List Bool × Option RLData
  | [] => ([], st)
  | t :: ts =>
    let r := rlFetch t st
    let rest := rlRun r.2 ts
    (r.1.allowed :: rest.1, rest.2)

/-! ## Database model

The persistent store: public_signatures rows, verification_codes rows
(cascade-deleted with their signature), and the next rowid the insert
will produce. Timestamps are naturals; the stored 0/1 verified flags
are booleans.
-/

/-- A public_signatures row, with the columns the workflows touch. -/
structure SigRow where
  id : Nat
  name : String := ""
  email_hash : String := ""
  phone_hash : String := ""
  position : Option String := none
  institution : Option String := none
  address : Option String := none
  email_verified : Bool := false
  phone_verified : Bool := false
  verification_completed_at : Option Nat := none
  deriving DecidableEq, Repr

/-- A verification_codes row. -/
structure CodeRow where
  signature_id : Nat
  code_type : String
  code_hash : String
  expires_at : Nat
  attempts : Nat := 0
  verified_at : Option Nat := none
  deriving DecidableEq, Repr

/-- The relational store as the workflows see it. -/
structure DB where
  sigs : List SigRow := []
  codes : List CodeRow := []
  nextId : Nat := 1
  deriving DecidableEq, Repr

/-- DELETE FROM public_signatures WHERE id = ?, with the schema cascade
removing the verification_codes rows of that signature. -/
def deleteSignature (db : DB) (sid : Nat) : DB :=
  { db with
    sigs := db.sigs.filter (fun r => r.id ≠ sid),
    codes := db.codes.filter (fun r => r.signature_id ≠ sid) }

/-! ## Input validation helpers of the submission handler -/

/-- JavaScript string falsiness for destructured JSON fields: absent or
empty string. -/
def falsyStr : Option String → Bool
  | none => true
  | some s => s == ""

/-- The whitespace class of JavaScript regular expressions. -/
def isJsSpace (c : Char) : Bool :=
  c.toNat ∈ [9, 10, 11, 12, 13, 32, 160, 5760, 8192, 8193, 8194, 8195,
    8196, 8197, 8198, 8199, 8200, 8201, 8202, 8232, 8233, 8239, 8287,
    12288, 65279]

/-- The email check of the handler, the regex
caret [^\s@]+ at [^\s@]+ dot [^\s@]+ dollar: the string splits as a
nonempty run of non-space non-at characters, an at sign, a nonempty run,
a dot, and a final nonempty run. Backtracking means such a split need
only exist: an at at position i with a later dot at position j, neither
at the edges of its run, and every other character non-space non-at. -/
def emailRegexTest (s : String) : Bool :=
  let cs := s.toList
  let n := cs.length
  (List.range n).any fun i =>
    (List.range n).any fun j =>
      cs.getD i ' ' == '@' && cs.getD j ' ' == '.' &&
      1 ≤ i && i + 2 ≤ j && j + 2 ≤ n &&
      ((List.range n).all fun k =>
        k == i || (!(isJsSpace (cs.getD k ' ')) && cs.getD k ' ' != '@'))

/-- mobile.replace of the non-digit class by the empty string: keep only
the decimal digits. -/
def digitsOnly (s : String) : String := String.mk (s.toList.filter Char.isDigit)

/-- email.toLowerCase, as the character map over the string. -/
def strToLower (s : String) : String := String.mk (s.toList.map Char.toLower)

/-- cleanMobile.startsWith, as the prefix test on the character lists. -/
def strStartsWith (s pre : String) : Bool := pre.toList.isPrefixOf s.toList

/-- JSON null coalescing of optional text fields: the empty string is
stored as null. -/
def orNull : Option String → Option String
  | none => none
  | some s => if s == "" then none else some s

/-- getCodeExpiryTime: ten minutes from now. -/
def getCodeExpiryTime (now : Nat) : Nat := now + 600000

/-! ## Signature submission workflow -/

/-- The outcome of the POST signatures handler. -/
inductive SubmitResult where
  | rateLimited
  | missingFields
  | invalidEmail
  | invalidMobile
  | duplicate
  | deliveryFailed
  | success (id : Nat)
  deriving DecidableEq, Repr

/-- The HTTP status attached to each submission outcome in the source
(Hono json defaults to 200 when no status is passed). -/
def submitStatus : SubmitResult → Nat
  | .rateLimited => 429
  | .missingFields => 400
  | .invalidEmail => 400
  | .invalidMobile => 400
  | .duplicate => 409
  | .deliveryFailed => 500
  | .success _ => 200

/-- The POST signatures handler. allowed is the rate limiter verdict for
the client key; emailCode and smsCode are the two generated random
codes; emailSendOk and smsSendOk are the outcomes of the two delivery
dispatches. Returns the outcome and the database left behind. -/
def postSignature (db : DB) (allowed : Bool)
    (name emailIn mobileIn position institution address : Option String)
    (emailCode smsCode : String) (now : Nat)
    (emailSendOk smsSendOk : Bool) : SubmitResult × DB :=
  if !allowed then (.rateLimited, db)
  else if falsyStr name || falsyStr emailIn || falsyStr mobileIn then
    (.missingFields, db)
  else
    let email := emailIn.getD ""
    let mobile := mobileIn.getD ""
    if !(emailRegexTest email) then (.invalidEmail, db)
    else
      let cleanMobile := digitsOnly mobile
      if cleanMobile.length ≠ 10 || !(strStartsWith cleanMobile "04") then
        (.invalidMobile, db)
      else
        let emailHash := hashString (strToLower email)
        let phoneHash := hashString cleanMobile
        if db.sigs.any (fun r => r.email_hash == emailHash || r.phone_hash == phoneHash) then
          (.duplicate, db)
        else
          let sigId := db.nextId
          let row : SigRow :=
            { id := sigId, name := name.getD "", email_hash := emailHash,
              phone_hash := phoneHash, position := orNull position,
              institution := orNull institution, address := orNull address }
          let expiresAt := getCodeExpiryTime now
          let db1 : DB :=
            { sigs := db.sigs ++ [row],
              codes := db.codes ++
                [⟨sigId, "email", hashCode emailCode, expiresAt, 0, none⟩,
                 ⟨sigId, "phone", hashCode smsCode, expiresAt, 0, none⟩],
              nextId := db.nextId + 1 }
          if emailSendOk && smsSendOk then (.success sigId, db1)
          else (.deliveryFailed, deleteSignature db1 sigId)

/-! ## Verification workflow -/

/-- The outcome of the POST verify handler. -/
inductive VerifyResult where
  | missingCodes
  | notFound
  | alreadyVerifiedSig
  | codesNotFound
  | alreadyVerified
  | expired
  | tooManyAttempts
  | invalidCodes (attemptsRemaining : Int)
  | verified
  deriving DecidableEq, Repr

/-- The HTTP status attached to each verification outcome. -/
def verifyStatus : VerifyResult → Nat
  | .notFound => 404
  | .codesNotFound => 404
  | .verified => 200
  | _ => 400

/-- The SELECT of the two verification code rows of a signature. -/
def codesFor (db : DB) (sid : Nat) : List CodeRow :=
  db.codes.filter fun r =>
    r.signature_id == sid && (r.code_type == "email" || r.code_type == "phone")

/-- UPDATE verification_codes SET attempts = attempts + 1 for both code
rows of the signature. -/
def bumpAttempts (db : DB) (sid : Nat) : DB :=
  { db with codes := db.codes.map fun r =>
      if r.signature_id == sid && (r.code_type == "email" || r.code_type == "phone")
      then { r with attempts := r.attempts + 1 } else r }

/-- The success path updates: verified_at on both code rows, both
verified flags and the completion timestamp on the signature. -/
def markVerified (db : DB) (sid : Nat) (now : Nat) : DB :=
  { db with
    codes := db.codes.map fun r =>
      if r.signature_id == sid && (r.code_type == "email" || r.code_type == "phone")
      then { r with verified_at := some now } else r,
    sigs := db.sigs.map fun s =>
      if s.id == sid
      then { s with email_verified := true, phone_verified := true,
                    verification_completed_at := some now }
      else s }

/-- The POST verify handler on signature sid with the submitted codes,
at time now. -/
def postVerify (db : DB) (sid : Nat) (emailCode smsCode : Option String)
    (now : Nat) : VerifyResult × DB :=
  if falsyStr emailCode || falsyStr smsCode then (.missingCodes, db)
  else
    match db.sigs.find? (fun s => s.id == sid) with
    | none => (.notFound, db)
    | some sig =>
      if sig.email_verified && sig.phone_verified then (.alreadyVerifiedSig, db)
      else
        let emailCodeHash := hashCode (emailCode.getD "")
        let smsCodeHash := hashCode (smsCode.getD "")
        let results := codesFor db sid
        if results.length ≠ 2 then (.codesNotFound, db)
        else
          match results.find? (fun r => r.code_type == "email"),
                results.find? (fun r => r.code_type == "phone") with
          | some eV, some pV =>
            if eV.verified_at.isSome && pV.verified_at.isSome then
              (.alreadyVerified, db)
            else if eV.expires_at < now || pV.expires_at < now then
              (.expired, db)
            else if eV.attempts ≥ 3 || pV.attempts ≥ 3 then
              (.tooManyAttempts, db)
            else
              let emailValid := eV.code_hash == emailCodeHash
              let phoneValid := pV.code_hash == smsCodeHash
              if !emailValid || !phoneValid then
                let remaining : Int :=
                  min (3 - ((eV.attempts : Int) + 1)) (3 - ((pV.attempts : Int) + 1))
                (.invalidCodes (if remaining > 0 then remaining else 0),
                 bumpAttempts db sid)
              else
                (.verified, markVerified db sid now)
          | _, _ => (.codesNotFound, db)

/-! ## Count endpoint -/

/-- An initial_signatories row; only its presence matters to the count
endpoint. -/
structure InitSigRow where
  first_name : String := ""
  last_name : String := ""
  deriving DecidableEq, Repr

/-- SELECT COUNT where email_verified = 1 AND phone_verified = 1 over
public_signatures. -/
def verifiedPublicCount (db : DB) : Nat :=
  (db.sigs.filter fun r => r.email_verified && r.phone_verified).length

/-- The GET signatures count handler: the verified public count plus the
count of the initial_signatories table. -/
def getSignaturesCount (db : DB) (initials : List InitSigRow) : Nat :=
  verifiedPublicCount db + initials.length

/-! ## Supporting lemmas -/

/-- The SHA-256 embedding reproduces the standard test vector for the
three byte message abc. -/
theorem sha256_vector_abc :
    hashString "abc" =
      "ba7816bf8f01cfea414140de5dae2223b00361a396177a9cb410ff61f20015ad" := by
  decide

/-- The SHA-256 embedding reproduces the standard test vector for the
empty message. -/
theorem sha256_vector_empty :
    hashString "" =
      "e3b0c44298fc1c149afbf4c8996fb92427ae41e4649b934ca495991b7852b855" := by
  decide

/-- A window count that respects the maximum still respects it after any
fetch: the limiter never stores a count above 5. -/
theorem rlFetch_count_le (now : Nat) (st : Option RLData)
    (h : ∀ w ∈ st, w.count ≤ 5) : ∀ w ∈ (rlFetch now st).2, w.count ≤ 5 := by
  match st with
  | none => simp [rlFetch]
  | some d =>
    have hd : d.count ≤ 5 := h d rfl
    simp only [rlFetch]
    split
    · simp
    · split
      · simpa using hd
      · rename_i h1 h2
        simp only [not_le] at h2
        simp
        omega

/-- The database state after the insert stage of a submission: the new
pending signature row and its two verification code rows, appended with
the next rowid. -/
def insertedDB (db : DB) (name emailIn mobileIn position institution address : Option String)
    (emailCode smsCode : String) (now : Nat) : DB :=
  { sigs := db.sigs ++
      [{ id := db.nextId, name := name.getD "",
         email_hash := hashString (strToLower (emailIn.getD "")),
         phone_hash := hashString (digitsOnly (mobileIn.getD "")),
         position := orNull position, institution := orNull institution,
         address := orNull address }],
    codes := db.codes ++
      [⟨db.nextId, "email", hashCode emailCode, getCodeExpiryTime now, 0, none⟩,
       ⟨db.nextId, "phone", hashCode smsCode, getCodeExpiryTime now, 0, none⟩],
    nextId := db.nextId + 1 }

/-- A submission that passes the gate and all validation and finds an
existing row with either identity hash stops at the duplicate check and
leaves the store untouched. -/
theorem submit_dup (db : DB)
    (name emailIn mobileIn position institution address : Option String)
    (emailCode smsCode : String) (now : Nat) (eOk sOk : Bool)
    (hf : (falsyStr name || falsyStr emailIn || falsyStr mobileIn) = false)
    (hre : emailRegexTest (emailIn.getD "") = true)
    (hmob : ((digitsOnly (mobileIn.getD "")).length ≠ 10
      || !(strStartsWith (digitsOnly (mobileIn.getD "")) "04")) = false)
    (hdup : db.sigs.any (fun r =>
        r.email_hash == hashString (strToLower (emailIn.getD ""))
        || r.phone_hash == hashString (digitsOnly (mobileIn.getD ""))) = true) :
    postSignature db true name emailIn mobileIn position institution address
      emailCode smsCode now eOk sOk = (.duplicate, db) := by
  simp only [postSignature, hf, hre, hmob, hdup, Bool.not_true, Bool.false_eq_true,
    if_false, if_true, Bool.true_eq_false, ite_false, ite_true]

/-- A submission that passes the gate, validation and the duplicate
check, with both deliveries succeeding, inserts the pending rows and
returns the new rowid. -/
theorem submit_success (db : DB)
    (name emailIn mobileIn position institution address : Option String)
    (emailCode smsCode : String) (now : Nat) (eOk sOk : Bool)
    (hf : (falsyStr name || falsyStr emailIn || falsyStr mobileIn) = false)
    (hre : emailRegexTest (emailIn.getD "") = true)
    (hmob : ((digitsOnly (mobileIn.getD "")).length ≠ 10
      || !(strStartsWith (digitsOnly (mobileIn.getD "")) "04")) = false)
    (hdup : db.sigs.any (fun r =>
        r.email_hash == hashString (strToLower (emailIn.getD ""))
        || r.phone_hash == hashString (digitsOnly (mobileIn.getD ""))) = false)
    (hsend : (eOk && sOk) = true) :
    postSignature db true name emailIn mobileIn position institution address
      emailCode smsCode now eOk sOk =
      (.success db.nextId,
       insertedDB db name emailIn mobileIn position institution address
         emailCode smsCode now) := by
  simp only [postSignature, insertedDB, hf, hre, hmob, hdup, hsend, Bool.not_true,
    Bool.false_eq_true, if_false, if_true, Bool.true_eq_false, ite_false, ite_true]

/-- A submission that passes the gate, validation and the duplicate
check, with at least one delivery failing, ends in the rollback: the
inserted signature is deleted again. -/
theorem submit_fail (db : DB)
    (name emailIn mobileIn position institution address : Option String)
    (emailCode smsCode : String) (now : Nat) (eOk sOk : Bool)
    (hf : (falsyStr name || falsyStr emailIn || falsyStr mobileIn) = false)
    (hre : emailRegexTest (emailIn.getD "") = true)
    (hmob : ((digitsOnly (mobileIn.getD "")).length ≠ 10
      || !(strStartsWith (digitsOnly (mobileIn.getD "")) "04")) = false)
    (hdup : db.sigs.any (fun r =>
        r.email_hash == hashString (strToLower (emailIn.getD ""))
        || r.phone_hash == hashString (digitsOnly (mobileIn.getD ""))) = false)
    (hsend : (eOk && sOk) = false) :
    postSignature db true name emailIn mobileIn position institution address
      emailCode smsCode now eOk sOk =
      (.deliveryFailed,
       deleteSignature
         (insertedDB db name emailIn mobileIn position institution address
           emailCode smsCode now) db.nextId) := by
  simp only [postSignature, insertedDB, hf, hre, hmob, hdup, hsend, Bool.not_true,
    Bool.false_eq_true, if_false, if_true, Bool.true_eq_false, ite_false, ite_true]

/-! ## Claims -/

/-- C1: a request on a key with no window record, or past resetTime,
starts a fresh window with count 1 and resetTime now plus 60 seconds and
is allowed; inside an active window a request with count below 5 is
allowed and increments the count; with count at least 5 it is rejected
without incrementing; the stored count never exceeds 5; six requests
with the first five inside one window see the sixth rejected when it
falls within 60 seconds of the first, while a sixth request 61 seconds
after the first is allowed and starts a fresh window. -/
theorem c1_rate_limiter (now : Nat) (d : RLData) (st : Option RLData)
    (t1 t2 t3 t4 t5 t6 : Nat)
    (h12 : t1 ≤ t2) (h23 : t2 ≤ t3) (h34 : t3 ≤ t4) (h45 : t4 ≤ t5)
    (h5w : t5 ≤ t1 + 60000) :
    rlFetch now none = (⟨true, 4⟩, some ⟨1, now + 60000⟩)
    ∧ (now > d.resetTime →
        rlFetch now (some d) = (⟨true, 4⟩, some ⟨1, now + 60000⟩))
    ∧ (now ≤ d.resetTime → d.count < 5 →
        rlFetch now (some d) =
          (⟨true, 5 - d.count - 1⟩, some ⟨d.count + 1, d.resetTime⟩))
    ∧ (now ≤ d.resetTime → d.count ≥ 5 →
        rlFetch now (some d) = (⟨false, 0⟩, some d))
    ∧ ((∀ w ∈ st, w.count ≤ 5) → ∀ w ∈ (rlFetch now st).2, w.count ≤ 5)
    ∧ (t6 ≤ t1 + 60000 →
        (rlRun none [t1, t2, t3, t4, t5, t6]).1 =
          [true, true, true, true, true, false])
    ∧ (t6 = t1 + 61000 →
        (rlRun none [t1, t2, t3, t4, t5, t6]).1 =
          [true, true, true, true, true, true]
        ∧ (rlRun none [t1, t2, t3, t4, t5, t6]).2 = some ⟨1, t6 + 60000⟩) := by
  have e1 : rlFetch t1 none = (⟨true, 4⟩, some ⟨1, t1 + 60000⟩) := rfl
  have e2 : rlFetch t2 (some ⟨1, t1 + 60000⟩) = (⟨true, 3⟩, some ⟨2, t1 + 60000⟩) := by
    simp only [rlFetch]
    rw [if_neg (by omega), if_neg (by norm_num)]
  have e3 : rlFetch t3 (some ⟨2, t1 + 60000⟩) = (⟨true, 2⟩, some ⟨3, t1 + 60000⟩) := by
    simp only [rlFetch]
    rw [if_neg (by omega), if_neg (by norm_num)]
  have e4 : rlFetch t4 (some ⟨3, t1 + 60000⟩) = (⟨true, 1⟩, some ⟨4, t1 + 60000⟩) := by
    simp only [rlFetch]
    rw [if_neg (by omega), if_neg (by norm_num)]
  have e5 : rlFetch t5 (some ⟨4, t1 + 60000⟩) = (⟨true, 0⟩, some ⟨5, t1 + 60000⟩) := by
    simp only [rlFetch]
    rw [if_neg (by omega), if_neg (by norm_num)]
  refine ⟨rfl, ?_, ?_, ?_, rlFetch_count_le now st, ?_, ?_⟩
  · intro h
    simp only [rlFetch]
    rw [if_pos h]
  · intro h1 h2
    simp only [rlFetch]
    rw [if_neg (by omega), if_neg (by omega)]
  · intro h1 h2
    simp only [rlFetch]
    rw [if_neg (by omega), if_pos h2]
  · intro h6
    have e6 : rlFetch t6 (some ⟨5, t1 + 60000⟩) = (⟨false, 0⟩, some ⟨5, t1 + 60000⟩) := by
      simp only [rlFetch]
      rw [if_neg (by omega), if_pos (by norm_num)]
    simp [rlRun, e1, e2, e3, e4, e5, e6]
  · intro h6
    have e6 : rlFetch t6 (some ⟨5, t1 + 60000⟩) = (⟨true, 4⟩, some ⟨1, t6 + 60000⟩) := by
      simp only [rlFetch]
      rw [if_pos (by omega)]
    constructor
    · simp [rlRun, e1, e2, e3, e4, e5, e6]
    · simp [rlRun, e1, e2, e3, e4, e5, e6]

/-- C1 witness: six requests on one key, the first five within the
minute, with the sixth at the window boundary rejected and, in a second
run, the sixth 61 seconds after the first allowed. -/
theorem c1_witness :
    (rlRun none [0, 10, 20, 30, 40, 60000]).1 =
      [true, true, true, true, true, false]
    ∧ (rlRun none [0, 10, 20, 30, 40, 61000]).1 =
      [true, true, true, true, true, true] := by
  refine ⟨?_, ?_⟩
  · exact (c1_rate_limiter 0 ⟨0, 0⟩ none 0 10 20 30 40 60000
      (by omega) (by omega) (by omega) (by omega) (by omega)).2.2.2.2.2.1
      (by omega)
  · exact ((c1_rate_limiter 0 ⟨0, 0⟩ none 0 10 20 30 40 61000
      (by omega) (by omega) (by omega) (by omega) (by omega)).2.2.2.2.2.2
      (by omega)).1

/-- C2: when a submission has passed validation and the duplicate check
and inserted its pending signature and code rows, a failure of either
delivery dispatch makes the workflow delete the just created signature
(the cascade removing its codes) and signal DeliveryFailed with status
500: afterwards no signature row and no verification code rows for that
submission persist, and when the new rowid was fresh the store is back
to its prior rows. -/
theorem c2_rollback (db : DB)
    (name emailIn mobileIn position institution address : Option String)
    (emailCode smsCode : String) (now : Nat) (eOk sOk : Bool)
    (hf : (falsyStr name || falsyStr emailIn || falsyStr mobileIn) = false)
    (hre : emailRegexTest (emailIn.getD "") = true)
    (hmob : ((digitsOnly (mobileIn.getD "")).length ≠ 10
      || !(strStartsWith (digitsOnly (mobileIn.getD "")) "04")) = false)
    (hdup : db.sigs.any (fun r =>
        r.email_hash == hashString (strToLower (emailIn.getD ""))
        || r.phone_hash == hashString (digitsOnly (mobileIn.getD ""))) = false)
    (hsend : (eOk && sOk) = false) :
    let r := postSignature db true name emailIn mobileIn position institution
      address emailCode smsCode now eOk sOk
    r.1 = .deliveryFailed
    ∧ submitStatus r.1 = 500
    ∧ (∀ s ∈ r.2.sigs, s.id ≠ db.nextId)
    ∧ (∀ c ∈ r.2.codes, c.signature_id ≠ db.nextId)
    ∧ ((∀ s ∈ db.sigs, s.id ≠ db.nextId) → r.2.sigs = db.sigs)
    ∧ ((∀ c ∈ db.codes, c.signature_id ≠ db.nextId) → r.2.codes = db.codes) := by
  have hres := submit_fail db name emailIn mobileIn position institution address
    emailCode smsCode now eOk sOk hf hre hmob hdup hsend
  simp only [hres]
  refine ⟨?_, ?_, ?_, ?_, ?_, ?_⟩
  · trivial
  · trivial
  · intro s hs
    simp only [deleteSignature, List.mem_filter, decide_eq_true_eq] at hs
    exact hs.2
  · intro c hc
    simp only [deleteSignature, List.mem_filter, decide_eq_true_eq] at hc
    exact hc.2
  · intro hfresh
    simp only [deleteSignature, insertedDB, List.filter_append]
    rw [List.filter_eq_self.mpr (fun s hs => decide_eq_true (hfresh s hs))]
    simp
  · intro hfresh
    simp only [deleteSignature, insertedDB, List.filter_append]
    rw [List.filter_eq_self.mpr (fun c hc => decide_eq_true (hfresh c hc))]
    simp

/-- C2 witness: a valid submission into an empty store with the email
dispatch failing and the SMS dispatch succeeding ends with
DeliveryFailed, status 500, and an empty store again. -/
theorem c2_witness :
    let r := postSignature {} true (some "Jane Doe") (some "jane@example.com")
      (some "0412345678") none none none "123456" "654321" 0 false true
    r.1 = .deliveryFailed
    ∧ submitStatus r.1 = 500
    ∧ (∀ s ∈ r.2.sigs, s.id ≠ (1 : Nat))
    ∧ (∀ c ∈ r.2.codes, c.signature_id ≠ (1 : Nat))
    ∧ r.2.sigs = []
    ∧ r.2.codes = [] := by
  have h := c2_rollback {} (some "Jane Doe") (some "jane@example.com")
    (some "0412345678") none none none "123456" "654321" 0 false true
    (by decide) (by decide) (by decide) (by decide) (by decide)
  exact ⟨h.1, h.2.1, h.2.2.1, h.2.2.2.1,
    h.2.2.2.2.1 (by simp), h.2.2.2.2.2 (by simp)⟩

/-- C3: whenever the verification workflow reaches the code comparison
and at least one submitted code hash differs from its stored hash, the
attempts counter is incremented on both verification code records,
including the one whose code was correct, and the response signals
InvalidCodes carrying the minimum of 3 minus each post-increment count,
floored at 0. -/
theorem c3_shared_attempts (db : DB) (sid : Nat) (ec sc : String) (now : Nat)
    (sig : SigRow) (eV pV : CodeRow)
    (hec : (ec == "") = false) (hsc : (sc == "") = false)
    (hfind : db.sigs.find? (fun s => s.id == sid) = some sig)
    (hnv : (sig.email_verified && sig.phone_verified) = false)
    (hcodes : codesFor db sid = [eV, pV])
    (he : eV.code_type = "email") (hp : pV.code_type = "phone")
    (hnva : (eV.verified_at.isSome && pV.verified_at.isSome) = false)
    (hexp : ¬(eV.expires_at < now ∨ pV.expires_at < now))
    (hatt : ¬(eV.attempts ≥ 3 ∨ pV.attempts ≥ 3))
    (hmm : (!(eV.code_hash == hashCode ec) || !(pV.code_hash == hashCode sc)) = true) :
    postVerify db sid (some ec) (some sc) now =
      (.invalidCodes
        (if min (3 - ((eV.attempts : Int) + 1)) (3 - ((pV.attempts : Int) + 1)) > 0
         then min (3 - ((eV.attempts : Int) + 1)) (3 - ((pV.attempts : Int) + 1))
         else 0),
       bumpAttempts db sid)
    ∧ ∀ r ∈ db.codes, r.signature_id = sid →
        r.code_type = "email" ∨ r.code_type = "phone" →
        { r with attempts := r.attempts + 1 } ∈
          (postVerify db sid (some ec) (some sc) now).2.codes := by
  have hfe : [eV, pV].find? (fun r => r.code_type == "email") = some eV := by
    apply List.find?_cons_of_pos
    simp [he]
  have hfp : [eV, pV].find? (fun r => r.code_type == "phone") = some pV := by
    rw [List.find?_cons_of_neg, List.find?_cons_of_pos]
    · simp [hp]
    · simp [he]
  obtain ⟨hexp1, hexp2⟩ := not_or.mp hexp
  obtain ⟨hatt1, hatt2⟩ := not_or.mp hatt
  have hmain : postVerify db sid (some ec) (some sc) now =
      (.invalidCodes
        (if min (3 - ((eV.attempts : Int) + 1)) (3 - ((pV.attempts : Int) + 1)) > 0
         then min (3 - ((eV.attempts : Int) + 1)) (3 - ((pV.attempts : Int) + 1))
         else 0),
       bumpAttempts db sid) := by
    simp only [postVerify, falsyStr, hec, hsc, Bool.or_self, Bool.false_eq_true,
      if_false, hfind, hnv, hcodes, hfe, hfp, List.length_cons, List.length_nil,
      Option.getD_some, hnva, ite_false, ite_true]
    rw [if_neg (by norm_num), if_neg (by simp [hexp1, hexp2]),
      if_neg (by simp [hatt1, hatt2]), if_pos hmm]
  refine ⟨hmain, ?_⟩
  intro r hr hsid htype
  rw [hmain]
  simp only [bumpAttempts]
  have hcond : (r.signature_id == sid
      && (r.code_type == "email" || r.code_type == "phone")) = true := by
    rcases htype with h | h <;> simp [hsid, h]
  have hmem := List.mem_map_of_mem
    (fun r : CodeRow =>
      if r.signature_id == sid && (r.code_type == "email" || r.code_type == "phone")
      then { r with attempts := r.attempts + 1 } else r) hr
  simpa [hcond] using hmem

/-- C3 witness: a wrong email code with a correct-slot phone record at
attempts 1 yields InvalidCodes with one attempt remaining and both
records bumped. -/
theorem c3_witness :
    postVerify
      { sigs := [{ id := 1 }],
        codes := [⟨1, "email", "storedemailhash", 1000, 0, none⟩,
                  ⟨1, "phone", "storedphonehash", 1000, 1, none⟩],
        nextId := 2 }
      1 (some "000000") (some "654321") 500 =
      (.invalidCodes 1,
       bumpAttempts
        { sigs := [{ id := 1 }],
          codes := [⟨1, "email", "storedemailhash", 1000, 0, none⟩,
                    ⟨1, "phone", "storedphonehash", 1000, 1, none⟩],
          nextId := 2 } 1) := by
  have h := c3_shared_attempts
    { sigs := [{ id := 1 }],
      codes := [⟨1, "email", "storedemailhash", 1000, 0, none⟩,
                ⟨1, "phone", "storedphonehash", 1000, 1, none⟩],
      nextId := 2 }
    1 "000000" "654321" 500 { id := 1 }
    ⟨1, "email", "storedemailhash", 1000, 0, none⟩
    ⟨1, "phone", "storedphonehash", 1000, 1, none⟩
    (by decide) (by decide) rfl rfl rfl rfl rfl (by decide)
    (by decide) (by decide) (by decide)
  simpa using h.1

/-- C4 counterexample: a verification request on a signature whose two
code records both carry attempts 3 but whose codes have expired is
answered with CodesExpired, not TooManyAttempts: the expiry check runs
before the attempt check. -/
theorem c4_counterexample :
    let db4 : DB :=
      { sigs := [{ id := 1 }],
        codes := [⟨1, "email", "x", 100, 3, none⟩, ⟨1, "phone", "y", 100, 3, none⟩],
        nextId := 2 }
    (∀ c ∈ db4.codes, c.attempts ≥ 3)
    ∧ postVerify db4 1 (some "123456") (some "654321") 200 = (.expired, db4)
    ∧ VerifyResult.expired ≠ VerifyResult.tooManyAttempts := by
  exact ⟨by decide, by decide, by decide⟩

/-- C4 amended: a verification request on a signature whose email or
phone code record has attempts at least 3 is answered TooManyAttempts,
whatever codes are submitted and without touching the store, provided
the earlier guards pass: the signature exists and is not fully verified,
both code records are present, not both already verified, and neither
has expired. -/
theorem c4_too_many_attempts (db : DB) (sid : Nat) (now : Nat)
    (sig : SigRow) (eV pV : CodeRow)
    (hfind : db.sigs.find? (fun s => s.id == sid) = some sig)
    (hnv : (sig.email_verified && sig.phone_verified) = false)
    (hcodes : codesFor db sid = [eV, pV])
    (he : eV.code_type = "email") (hp : pV.code_type = "phone")
    (hnva : (eV.verified_at.isSome && pV.verified_at.isSome) = false)
    (hexp : ¬(eV.expires_at < now ∨ pV.expires_at < now))
    (hatt : eV.attempts ≥ 3 ∨ pV.attempts ≥ 3) :
    ∀ ec sc : String, (ec == "") = false → (sc == "") = false →
      postVerify db sid (some ec) (some sc) now = (.tooManyAttempts, db) := by
  intro ec sc hec hsc
  have hfe : [eV, pV].find? (fun r => r.code_type == "email") = some eV := by
    apply List.find?_cons_of_pos
    simp [he]
  have hfp : [eV, pV].find? (fun r => r.code_type == "phone") = some pV := by
    rw [List.find?_cons_of_neg, List.find?_cons_of_pos]
    · simp [hp]
    · simp [he]
  obtain ⟨hexp1, hexp2⟩ := not_or.mp hexp
  simp only [postVerify, falsyStr, hec, hsc, Bool.or_self, Bool.false_eq_true,
    if_false, hfind, hnv, hcodes, hfe, hfp, List.length_cons, List.length_nil,
    Option.getD_some, hnva, ite_false, ite_true]
  rw [if_neg (by norm_num), if_neg (by simp [hexp1, hexp2]),
    if_pos (by rcases hatt with h | h <;> simp [h])]

/-- C4 witness: a fourth attempt with both submitted codes correct is
still rejected with TooManyAttempts once attempts have reached 3. -/
theorem c4_witness :
    postVerify
      { sigs := [{ id := 1 }],
        codes := [⟨1, "email", hashCode "123456", 1000, 3, none⟩,
                  ⟨1, "phone", hashCode "654321", 1000, 3, none⟩],
        nextId := 2 }
      1 (some "123456") (some "654321") 500 =
      (.tooManyAttempts,
       { sigs := [{ id := 1 }],
         codes := [⟨1, "email", hashCode "123456", 1000, 3, none⟩,
                   ⟨1, "phone", hashCode "654321", 1000, 3, none⟩],
         nextId := 2 }) := by
  exact c4_too_many_attempts
    { sigs := [{ id := 1 }],
      codes := [⟨1, "email", hashCode "123456", 1000, 3, none⟩,
                ⟨1, "phone", hashCode "654321", 1000, 3, none⟩],
      nextId := 2 }
    1 500 { id := 1 }
    ⟨1, "email", hashCode "123456", 1000, 3, none⟩
    ⟨1, "phone", hashCode "654321", 1000, 3, none⟩
    rfl rfl rfl rfl rfl rfl (by decide) (Or.inl (by decide))
    "123456" "654321" (by decide) (by decide)

/-- A submission whose rate limiter verdict is not allowed stops with
RateLimited and an untouched store. -/
theorem submit_rate_limited (db : DB)
    (name emailIn mobileIn position institution address : Option String)
    (emailCode smsCode : String) (now : Nat) (eOk sOk : Bool) :
    postSignature db false name emailIn mobileIn position institution address
      emailCode smsCode now eOk sOk = (.rateLimited, db) := rfl

/-- A submission with a missing or empty required field stops with
MissingFields. -/
theorem submit_missing (db : DB)
    (name emailIn mobileIn position institution address : Option String)
    (emailCode smsCode : String) (now : Nat) (eOk sOk : Bool)
    (hf : (falsyStr name || falsyStr emailIn || falsyStr mobileIn) = true) :
    postSignature db true name emailIn mobileIn position institution address
      emailCode smsCode now eOk sOk = (.missingFields, db) := by
  simp only [postSignature, hf, Bool.not_true, Bool.false_eq_true, if_false,
    ite_true, ite_false]

/-- A submission whose email fails the format regex stops with
InvalidEmail. -/
theorem submit_invalid_email (db : DB)
    (name emailIn mobileIn position institution address : Option String)
    (emailCode smsCode : String) (now : Nat) (eOk sOk : Bool)
    (hf : (falsyStr name || falsyStr emailIn || falsyStr mobileIn) = false)
    (hre : emailRegexTest (emailIn.getD "") = false) :
    postSignature db true name emailIn mobileIn position institution address
      emailCode smsCode now eOk sOk = (.invalidEmail, db) := by
  simp only [postSignature, hf, hre, Bool.not_true, Bool.not_false,
    Bool.false_eq_true, if_false, ite_true, ite_false]

/-- A submission whose cleaned mobile is not 10 digits starting 04
stops with InvalidMobile. -/
theorem submit_invalid_mobile (db : DB)
    (name emailIn mobileIn position institution address : Option String)
    (emailCode smsCode : String) (now : Nat) (eOk sOk : Bool)
    (hf : (falsyStr name || falsyStr emailIn || falsyStr mobileIn) = false)
    (hre : emailRegexTest (emailIn.getD "") = true)
    (hmob : ((digitsOnly (mobileIn.getD "")).length ≠ 10
      || !(strStartsWith (digitsOnly (mobileIn.getD "")) "04")) = true) :
    postSignature db true name emailIn mobileIn position institution address
      emailCode smsCode now eOk sOk = (.invalidMobile, db) := by
  simp only [postSignature, hf, hre, hmob, Bool.not_true, Bool.not_false,
    Bool.false_eq_true, if_false, ite_true, ite_false]

/-- C5: a validated submission whose normalized email hash or phone
hash equals the corresponding hash of any existing signature row,
verified or not, is rejected with DuplicateIdentity (HTTP 409 here) and
the store is unchanged; and whenever a submission succeeds, no
pre-existing row shared either hash, so an identity backs at most one
signature record. -/
theorem c5_duplicate_identity (db : DB)
    (name emailIn mobileIn position institution address : Option String)
    (emailCode smsCode : String) (now : Nat) (eOk sOk : Bool)
    (hf : (falsyStr name || falsyStr emailIn || falsyStr mobileIn) = false)
    (hre : emailRegexTest (emailIn.getD "") = true)
    (hmob : ((digitsOnly (mobileIn.getD "")).length ≠ 10
      || !(strStartsWith (digitsOnly (mobileIn.getD "")) "04")) = false) :
    ((∃ r ∈ db.sigs, r.email_hash = hashString (strToLower (emailIn.getD ""))
        ∨ r.phone_hash = hashString (digitsOnly (mobileIn.getD ""))) →
      postSignature db true name emailIn mobileIn position institution address
        emailCode smsCode now eOk sOk = (.duplicate, db)
      ∧ submitStatus (postSignature db true name emailIn mobileIn position
          institution address emailCode smsCode now eOk sOk).1 = 409)
    ∧ (∀ sid db2,
        postSignature db true name emailIn mobileIn position institution address
          emailCode smsCode now eOk sOk = (.success sid, db2) →
        ∀ r ∈ db.sigs,
          r.email_hash ≠ hashString (strToLower (emailIn.getD ""))
          ∧ r.phone_hash ≠ hashString (digitsOnly (mobileIn.getD ""))) := by
  constructor
  · rintro ⟨r, hr, hor⟩
    have hdup : db.sigs.any (fun r =>
        r.email_hash == hashString (strToLower (emailIn.getD ""))
        || r.phone_hash == hashString (digitsOnly (mobileIn.getD ""))) = true := by
      refine List.any_eq_true.mpr ⟨r, hr, ?_⟩
      rcases hor with h | h <;> simp [h]
    have := submit_dup db name emailIn mobileIn position institution address
      emailCode smsCode now eOk sOk hf hre hmob hdup
    refine ⟨this, ?_⟩
    rw [this]
    rfl
  · intro sid db2 hps r hr
    by_cases hdup : db.sigs.any (fun r =>
        r.email_hash == hashString (strToLower (emailIn.getD ""))
        || r.phone_hash == hashString (digitsOnly (mobileIn.getD ""))) = true
    · have := submit_dup db name emailIn mobileIn position institution address
        emailCode smsCode now eOk sOk hf hre hmob hdup
      rw [this] at hps
      simp at hps
    · constructor
      · intro h
        exact hdup (List.any_eq_true.mpr ⟨r, hr, by simp [h]⟩)
      · intro h
        exact hdup (List.any_eq_true.mpr ⟨r, hr, by simp [h]⟩)

/-- C5 witness: resubmitting the same email in different case against a
store holding its hash is rejected as a duplicate with the store
unchanged. -/
theorem c5_witness :
    let dbw : DB :=
      { sigs := [{ id := 1, name := "Jane Doe",
                   email_hash := hashString (strToLower "Jane@Example.com"),
                   phone_hash := hashString (digitsOnly "0412345678") }],
        nextId := 2 }
    postSignature dbw true (some "Jane Smith") (some "jane@example.com")
      (some "0499999999") none none none "111111" "222222" 0 true true
      = (.duplicate, dbw) := by
  intro dbw
  have h := (c5_duplicate_identity dbw (some "Jane Smith")
    (some "jane@example.com") (some "0499999999") none none none
    "111111" "222222" 0 true true (by decide) (by decide) (by decide)).1
  refine (h ⟨dbw.sigs.head (by decide), by simp [dbw], Or.inl ?_⟩).1
  show hashString (strToLower "Jane@Example.com")
      = hashString (strToLower ((some "jane@example.com").getD ""))
  rw [show strToLower "Jane@Example.com" = "jane@example.com" from by decide,
    show strToLower ((some "jane@example.com").getD "") = "jane@example.com" from by decide]

/-- C6 counterexample: the code lower-cases but never trims the email,
and the format regex rejects whitespace, so the second Scenario A
submission with a trailing space is rejected with InvalidEmail, not
DuplicateIdentity, and the normalization of the spaced email differs
from the trimmed one. -/
theorem c6_counterexample :
    let db1 := (postSignature {} true (some "Jane Doe") (some "Jane@Example.com")
      (some "0412345678") none none none "123456" "654321" 0 true true).2
    postSignature db1 true (some "Jane Doe") (some "jane@example.com ")
      (some "0412345678") none none none "111111" "222222" 5 true true
      = (.invalidEmail, db1)
    ∧ SubmitResult.invalidEmail ≠ SubmitResult.duplicate
    ∧ strToLower "jane@example.com " ≠ "jane@example.com" := by
  exact ⟨rfl, by decide, by decide⟩

/-- C6 amended: email identity is normalized by lower-casing only, so a
second submission whose email equals a stored one after lower-casing is
rejected with DuplicateIdentity, while an email carrying surrounding
whitespace fails format validation and is rejected with InvalidEmail
before any hashing or duplicate check. -/
theorem c6_amended (db : DB)
    (name mobileIn position institution address : Option String)
    (emailCode smsCode : String) (now : Nat) (eOk sOk : Bool)
    (emailIn : Option String) (e1 : String) (r : SigRow)
    (hf : (falsyStr name || falsyStr emailIn || falsyStr mobileIn) = false)
    (hmob : ((digitsOnly (mobileIn.getD "")).length ≠ 10
      || !(strStartsWith (digitsOnly (mobileIn.getD "")) "04")) = false)
    (hr : r ∈ db.sigs) (hhash : r.email_hash = hashString (strToLower e1)) :
    (emailRegexTest (emailIn.getD "") = true →
      strToLower (emailIn.getD "") = strToLower e1 →
      postSignature db true name emailIn mobileIn position institution address
        emailCode smsCode now eOk sOk = (.duplicate, db))
    ∧ (∀ email2 : String, (email2 == "") = false →
        emailRegexTest email2 = false →
        (falsyStr name || falsyStr (some email2) || falsyStr mobileIn) = false →
        postSignature db true name (some email2) mobileIn position institution
          address emailCode smsCode now eOk sOk = (.invalidEmail, db)) := by
  constructor
  · intro hre hcase
    apply submit_dup db name emailIn mobileIn position institution address
      emailCode smsCode now eOk sOk hf hre hmob
    refine List.any_eq_true.mpr ⟨r, hr, ?_⟩
    simp [hhash, hcase]
  · intro email2 hne hre2 hf2
    exact submit_invalid_email db name (some email2) mobileIn position
      institution address emailCode smsCode now eOk sOk hf2 (by simpa using hre2)

/-- C6 witness: with the hash of the lower-cased first email stored,
the same email in lower case is a duplicate and the trailing-space
variant is invalid input. -/
theorem c6_witness :
    let dbw : DB :=
      { sigs := [{ id := 1, name := "Jane Doe",
                   email_hash := hashString (strToLower "Jane@Example.com"),
                   phone_hash := hashString (digitsOnly "0412345678") }],
        nextId := 2 }
    postSignature dbw true (some "Jane Doe") (some "jane@example.com")
      (some "0412345678") none none none "111111" "222222" 5 true true
      = (.duplicate, dbw)
    ∧ postSignature dbw true (some "Jane Doe") (some "jane@example.com ")
      (some "0412345678") none none none "111111" "222222" 5 true true
      = (.invalidEmail, dbw) := by
  intro dbw
  have h := c6_amended dbw (some "Jane Doe") (some "0412345678") none none none
    "111111" "222222" 5 true true (some "jane@example.com")
    "Jane@Example.com" (dbw.sigs.head (by decide))
    (by decide) (by decide) (by simp [dbw]) rfl
  exact ⟨h.1 (by decide) (by decide), h.2 "jane@example.com " (by decide)
    (by decide) (by decide)⟩

/-- C7 counterexample: 0312345678 is exactly 10 digits matching
0 then nine digits, yet the submission is rejected with InvalidMobile,
because the code demands the prefix 04, not merely 0. -/
theorem c7_counterexample :
    (digitsOnly "0312345678" = "0312345678"
      ∧ ("0312345678" : String).length = 10
      ∧ "0312345678".toList.all Char.isDigit = true
      ∧ "0312345678".toList.head? = some '0')
    ∧ postSignature {} true (some "Jane Doe") (some "jane@example.com")
        (some "0312345678") none none none "123456" "654321" 0 true true
        = (.invalidMobile, ({} : DB))
    ∧ submitStatus SubmitResult.invalidMobile = 400
    ∧ SubmitResult.invalidMobile ≠ SubmitResult.success 1 := by
  exact ⟨⟨by decide, by decide, by decide, by decide⟩, rfl, rfl, by decide⟩

/-- C7 amended: a validated submission is rejected with InvalidMobile
exactly when the digit-stripped mobile is not 10 digits starting 04;
when it is rejected the store is untouched. -/
theorem c7_mobile_validation (db : DB)
    (name emailIn mobileIn position institution address : Option String)
    (emailCode smsCode : String) (now : Nat) (eOk sOk : Bool)
    (hf : (falsyStr name || falsyStr emailIn || falsyStr mobileIn) = false)
    (hre : emailRegexTest (emailIn.getD "") = true) :
    ((postSignature db true name emailIn mobileIn position institution address
        emailCode smsCode now eOk sOk).1 = .invalidMobile
      ↔ ¬((digitsOnly (mobileIn.getD "")).length = 10
          ∧ strStartsWith (digitsOnly (mobileIn.getD "")) "04" = true))
    ∧ (¬((digitsOnly (mobileIn.getD "")).length = 10
          ∧ strStartsWith (digitsOnly (mobileIn.getD "")) "04" = true) →
        postSignature db true name emailIn mobileIn position institution address
          emailCode smsCode now eOk sOk = (.invalidMobile, db)) := by
  have hbad : ¬((digitsOnly (mobileIn.getD "")).length = 10
      ∧ strStartsWith (digitsOnly (mobileIn.getD "")) "04" = true) →
      postSignature db true name emailIn mobileIn position institution address
        emailCode smsCode now eOk sOk = (.invalidMobile, db) := by
    intro hnot
    apply submit_invalid_mobile db name emailIn mobileIn position institution
      address emailCode smsCode now eOk sOk hf hre
    rcases Decidable.not_and_iff_or_not.mp hnot with h | h
    · simp [h]
    · simp [Bool.not_eq_true] at h
      simp [h]
  refine ⟨⟨?_, fun h => by rw [hbad h]⟩, hbad⟩
  intro hres hok
  have hmobok : ((digitsOnly (mobileIn.getD "")).length ≠ 10
      || !(strStartsWith (digitsOnly (mobileIn.getD "")) "04")) = false := by
    simp [hok.1, hok.2]
  by_cases hdup : db.sigs.any (fun r =>
      r.email_hash == hashString (strToLower (emailIn.getD ""))
      || r.phone_hash == hashString (digitsOnly (mobileIn.getD ""))) = true
  · rw [submit_dup db name emailIn mobileIn position institution address
      emailCode smsCode now eOk sOk hf hre hmobok hdup] at hres
    simp at hres
  · have hdupf : db.sigs.any (fun r =>
        r.email_hash == hashString (strToLower (emailIn.getD ""))
        || r.phone_hash == hashString (digitsOnly (mobileIn.getD ""))) = false := by
      simpa using hdup
    by_cases hsend : (eOk && sOk) = true
    · rw [submit_success db name emailIn mobileIn position institution address
        emailCode smsCode now eOk sOk hf hre hmobok hdupf hsend] at hres
      simp at hres
    · rw [submit_fail db name emailIn mobileIn position institution address
        emailCode smsCode now eOk sOk hf hre hmobok hdupf
        (by simpa using hsend)] at hres
      simp at hres

/-- C7 witness: a spaced 04 number passes the mobile check while an
05 number of the right length is rejected. -/
theorem c7_witness :
    postSignature {} true (some "Jane Doe") (some "jane@example.com")
      (some "0412 345 678") none none none "123456" "654321" 0 true true
      ≠ (.invalidMobile, ({} : DB))
    ∧ postSignature {} true (some "Jane Doe") (some "jane@example.com")
      (some "0512345678") none none none "123456" "654321" 0 true true
      = (.invalidMobile, ({} : DB)) := by
  have h := c7_mobile_validation {} (some "Jane Doe") (some "jane@example.com")
    (some "0412 345 678") none none none "123456" "654321" 0 true true
    (by decide) (by decide)
  have h2 := c7_mobile_validation {} (some "Jane Doe") (some "jane@example.com")
    (some "0512345678") none none none "123456" "654321" 0 true true
    (by decide) (by decide)
  constructor
  · intro heq
    exact (h.1.mp (by rw [heq])) (by decide)
  · exact h2.2 (by decide)

/-- Mapping a function that fixes every member leaves a countP
unchanged. -/
theorem countP_map_id_of (l : List SigRow) (f : SigRow → SigRow) (p : SigRow → Bool)
    (h : ∀ t ∈ l, f t = t) : (l.map f).countP p = l.countP p := by
  induction l with
  | nil => rfl
  | cons a tl ih =>
    rw [List.map_cons, h a (by simp)]
    by_cases hp : p a = true
    · rw [List.countP_cons_of_pos _ _ hp, List.countP_cons_of_pos _ _ hp,
        ih (fun t ht => h t (by simp [ht]))]
    · rw [List.countP_cons_of_neg _ _ hp, List.countP_cons_of_neg _ _ hp,
        ih (fun t ht => h t (by simp [ht]))]

/-- Marking the unique signature with a given id verified raises the
verified row count by exactly one. -/
theorem verified_count_bump (l : List SigRow) (sid now : Nat)
    (h1 : l.countP (fun t => t.id == sid) = 1)
    (h2 : ∀ t ∈ l, t.id = sid → (t.email_verified && t.phone_verified) = false) :
    (l.map (fun s => if s.id == sid
        then { s with email_verified := true, phone_verified := true,
                      verification_completed_at := some now }
        else s)).countP (fun r => r.email_verified && r.phone_verified)
      = l.countP (fun r => r.email_verified && r.phone_verified) + 1 := by
  induction l with
  | nil => simp at h1
  | cons a tl ih =>
    rw [List.map_cons]
    by_cases ha : a.id = sid
    · have hbeq : (a.id == sid) = true := by simp [ha]
      have htl0 : tl.countP (fun t => t.id == sid) = 0 := by
        rw [List.countP_cons_of_pos (fun t : SigRow => t.id == sid) tl hbeq] at h1
        omega
      have hid : ∀ t ∈ tl, (fun s : SigRow => if s.id == sid
          then { s with email_verified := true, phone_verified := true,
                        verification_completed_at := some now }
          else s) t = t := by
        intro t ht
        have hne := List.countP_eq_zero.mp htl0 t ht
        simp only [if_neg hne]
      have hpa : (a.email_verified && a.phone_verified) = false :=
        h2 a (by simp) ha
      rw [if_pos hbeq,
        List.countP_cons_of_pos
          (fun r : SigRow => r.email_verified && r.phone_verified) _ (by simp),
        List.countP_cons_of_neg
          (fun r : SigRow => r.email_verified && r.phone_verified) tl
          (by simp [hpa]),
        countP_map_id_of tl _ _ hid]
    · have hbeq : (a.id == sid) = false := by simp [ha]
      have h1r : tl.countP (fun t => t.id == sid) = 1 := by
        rw [List.countP_cons_of_neg (fun t : SigRow => t.id == sid) tl
          (by simp [hbeq])] at h1
        exact h1
      have ihr := ih h1r (fun t ht hid => h2 t (by simp [ht]) hid)
      rw [if_neg (by simp [hbeq])]
      by_cases hp : (a.email_verified && a.phone_verified) = true
      · rw [List.countP_cons_of_pos
            (fun r : SigRow => r.email_verified && r.phone_verified) _ hp,
          List.countP_cons_of_pos
            (fun r : SigRow => r.email_verified && r.phone_verified) tl hp, ihr]
      · rw [List.countP_cons_of_neg
            (fun r : SigRow => r.email_verified && r.phone_verified) _ hp,
          List.countP_cons_of_neg
            (fun r : SigRow => r.email_verified && r.phone_verified) tl hp, ihr]

/-- C8 counterexample: with no public signatures and one initial
signatory, the count endpoint answers 1 while the number of signature
rows with both verified flags true is 0: the endpoint adds the
initial_signatories count. -/
theorem c8_counterexample :
    getSignaturesCount {} [{}] = 1
    ∧ verifiedPublicCount {} = 0
    ∧ getSignaturesCount {} [{}] ≠ verifiedPublicCount {} := by
  exact ⟨rfl, rfl, by decide⟩

/-- C8 amended: the count endpoint returns the number of signature rows
with both verified flags true plus the number of initial signatories;
completing a verification of the unique not-yet-verified signature with
a given id raises the answer by exactly one. -/
theorem c8_total_count (db : DB) (initials : List InitSigRow) (sid now : Nat)
    (h1 : db.sigs.countP (fun t => t.id == sid) = 1)
    (h2 : ∀ t ∈ db.sigs, t.id = sid →
      (t.email_verified && t.phone_verified) = false) :
    getSignaturesCount db initials = verifiedPublicCount db + initials.length
    ∧ verifiedPublicCount db =
        (db.sigs.filter fun r => r.email_verified && r.phone_verified).length
    ∧ getSignaturesCount (markVerified db sid now) initials
        = getSignaturesCount db initials + 1 := by
  refine ⟨rfl, rfl, ?_⟩
  have hb := verified_count_bump db.sigs sid now h1 h2
  simp only [getSignaturesCount, verifiedPublicCount, markVerified,
    ← List.countP_eq_length_filter] at hb ⊢
  omega

/-- C8 witness: one pending signature and one initial signatory count
as 1, and as 2 once the signature is verified. -/
theorem c8_witness :
    getSignaturesCount
      { sigs := [{ id := 1, name := "Jane Doe" }], nextId := 2 }
      [{ first_name := "Ada", last_name := "Lovelace" }] = 1
    ∧ getSignaturesCount
      (markVerified { sigs := [{ id := 1, name := "Jane Doe" }], nextId := 2 } 1 99)
      [{ first_name := "Ada", last_name := "Lovelace" }] = 2 := by
  have h := c8_total_count
    { sigs := [{ id := 1, name := "Jane Doe" }], nextId := 2 }
    [{ first_name := "Ada", last_name := "Lovelace" }] 1 99
    (by decide) (by decide)
  refine ⟨by decide, ?_⟩
  rw [h.2.2]
  decide

/-- C9 counterexample: a duplicate submission is answered with HTTP
409, not the claimed 400, and a fully successful submission is answered
with 200 (the json default), not the claimed 201. -/
theorem c9_counterexample :
    let dbx : DB :=
      { sigs := [{ id := 1,
                   email_hash := hashString (strToLower "jane@example.com"),
                   phone_hash := hashString (digitsOnly "0412345678") }],
        nextId := 2 }
    submitStatus (postSignature dbx true (some "Jane Doe")
      (some "jane@example.com") (some "0412345678") none none none
      "123456" "654321" 0 true true).1 = 409
    ∧ (409 : Nat) ≠ 400
    ∧ submitStatus (postSignature {} true (some "Jane Doe")
      (some "jane@example.com") (some "0412345678") none none none
      "123456" "654321" 0 true true).1 = 200
    ∧ (200 : Nat) ≠ 201 := by
  intro dbx
  refine ⟨?_, by decide, ?_, by decide⟩
  · rw [submit_dup dbx (some "Jane Doe") (some "jane@example.com")
      (some "0412345678") none none none "123456" "654321" 0 true true
      (by decide) (by decide) (by decide) (by simp [dbx])]
    rfl
  · rw [submit_success {} (some "Jane Doe") (some "jane@example.com")
      (some "0412345678") none none none "123456" "654321" 0 true true
      (by decide) (by decide) (by decide) (by decide) (by decide)]
    rfl

/-- C9 amended: the submission endpoint answers 429 when rate limited,
400 for a missing field, a bad email format or a bad mobile, 409 for a
duplicate identity, 500 on delivery failure, and 200 with the new rowid
in the body on success. -/
theorem c9_statuses (db : DB)
    (name emailIn mobileIn position institution address : Option String)
    (emailCode smsCode : String) (now : Nat) (eOk sOk : Bool) :
    (postSignature db false name emailIn mobileIn position institution address
        emailCode smsCode now eOk sOk = (.rateLimited, db)
      ∧ submitStatus .rateLimited = 429)
    ∧ ((falsyStr name || falsyStr emailIn || falsyStr mobileIn) = true →
        postSignature db true name emailIn mobileIn position institution address
          emailCode smsCode now eOk sOk = (.missingFields, db))
    ∧ submitStatus .missingFields = 400
    ∧ submitStatus .invalidEmail = 400
    ∧ submitStatus .invalidMobile = 400
    ∧ submitStatus .duplicate = 409
    ∧ submitStatus .deliveryFailed = 500
    ∧ (∀ i, submitStatus (.success i) = 200)
    ∧ ((falsyStr name || falsyStr emailIn || falsyStr mobileIn) = false →
        emailRegexTest (emailIn.getD "") = true →
        ((digitsOnly (mobileIn.getD "")).length ≠ 10
          || !(strStartsWith (digitsOnly (mobileIn.getD "")) "04")) = false →
        db.sigs.any (fun r =>
          r.email_hash == hashString (strToLower (emailIn.getD ""))
          || r.phone_hash == hashString (digitsOnly (mobileIn.getD ""))) = false →
        (eOk && sOk) = true →
        postSignature db true name emailIn mobileIn position institution address
          emailCode smsCode now eOk sOk =
          (.success db.nextId,
           insertedDB db name emailIn mobileIn position institution address
             emailCode smsCode now)) := by
  refine ⟨⟨submit_rate_limited db name emailIn mobileIn position institution
      address emailCode smsCode now eOk sOk, rfl⟩,
    fun hf => submit_missing db name emailIn mobileIn position institution
      address emailCode smsCode now eOk sOk hf,
    rfl, rfl, rfl, rfl, rfl, fun _ => rfl,
    fun hf hre hmob hdup hsend => submit_success db name emailIn mobileIn
      position institution address emailCode smsCode now eOk sOk
      hf hre hmob hdup hsend⟩

/-- C9 witness: concrete rate-limited, missing-name and successful
submissions produce the corresponding outcomes, the last carrying the
new id 1. -/
theorem c9_witness :
    postSignature {} false (some "Jane Doe") (some "jane@example.com")
      (some "0412345678") none none none "123456" "654321" 0 true true
      = (.rateLimited, ({} : DB))
    ∧ submitStatus .rateLimited = 429
    ∧ postSignature {} true none (some "jane@example.com")
      (some "0412345678") none none none "123456" "654321" 0 true true
      = (.missingFields, ({} : DB))
    ∧ (postSignature {} true (some "Jane Doe") (some "jane@example.com")
      (some "0412345678") none none none "123456" "654321" 0 true true).1
      = .success 1 := by
  have h1 := c9_statuses {} (some "Jane Doe") (some "jane@example.com")
    (some "0412345678") none none none "123456" "654321" 0 true true
  have h2 := c9_statuses {} none (some "jane@example.com")
    (some "0412345678") none none none "123456" "654321" 0 true true
  refine ⟨h1.1.1, h1.1.2, h2.2.1 (by decide), ?_⟩
  rw [h1.2.2.2.2.2.2.2.2 (by decide) (by decide) (by decide) (by decide)
    (by decide)]

/-- C10: hashCode and hashString are the same function, the
hex-encoded SHA-256 digest of the UTF-8 bytes, so a stored code hash
matches a submitted code exactly when the identity-hash of the
submitted code equals it. -/
theorem c10_hash_schemes_agree :
    hashCode = hashString
    ∧ (∀ s : String, hashCode s = hashString s)
    ∧ (∀ stored code : String, stored = hashCode code ↔ hashString code = stored) := by
  refine ⟨rfl, fun s => rfl, fun stored code => ?_⟩
  constructor
  · intro h
    exact h.symm
  · intro h
    exact h.symm

/-- C10 witness: the two hashing functions agree on a concrete code. -/
theorem c10_witness : hashCode "123456" = hashString "123456" :=
  c10_hash_schemes_agree.2.1 "123456"

end RA2033
